import Mathlib

/-!
Shallow embedding of `src/design-patterns/behavioral/state/state-examples.ts`.

The file demonstrates the State pattern five times.  Each lifecycle has a
context class holding a mutable `state` field and one concrete class per
state variant; every action method either reassigns the context's `state`
field to a fresh instance of the successor variant or only writes a message
with `console.log` and leaves `state` alone.  No method throws.

We embed each lifecycle as an inductive type of state identity tags and a
step function `Tag → Action → Tag` recording the value of the context's
`state` field after the delegated call.  Console output never influences
the state, so it is not part of the step functions; where a claim needs it
we model it separately.  The line numbers in the comments refer to
`state-examples.ts`.
-/

/-! Example 1 (lines 9-65): Order with states Pending / Paid / Shipped. -/

inductive OrderTag
  | pending
  | paid
  | shipped
  deriving DecidableEq, Fintype

inductive OrderAction
  | pay
  | ship
  deriving DecidableEq, Fintype

/-- Transcription of the `pay`/`ship` methods of `Pending` (lines 31-42),
`Paid` (lines 44-55) and `Shipped` (lines 57-65): the resulting value of
`order.state` after the delegated call. -/
def orderStep : OrderTag → OrderAction → OrderTag
  | .pending, .pay => .paid        -- Pending.pay:   order.state = new Paid()
  | .pending, .ship => .pending    -- Pending.ship:  log only
  | .paid, .pay => .paid           -- Paid.pay:      log only
  | .paid, .ship => .shipped       -- Paid.ship:     order.state = new Shipped()
  | .shipped, .pay => .shipped     -- Shipped.pay:   empty body
  | .shipped, .ship => .shipped    -- Shipped.ship:  log only

/-- Identity tag returned by each variant's `status()` (lines 39-41, 52-54,
62-64). -/
def OrderTag.status : OrderTag → String
  | .pending => "Beklemede"
  | .paid => "Ödendi"
  | .shipped => "Gönderildi"

/-! Example 2 (lines 77-112): VendingMachine with states NoCoin / HasCoin. -/

inductive VendTag
  | noCoin
  | hasCoin
  deriving DecidableEq, Fintype

inductive VendAction
  | insertCoin
  | selectDrink
  deriving DecidableEq, Fintype

/-- Transcription of the methods of `NoCoin` (lines 94-102) and `HasCoin`
(lines 104-112). -/
def vendStep : VendTag → VendAction → VendTag
  | .noCoin, .insertCoin => .hasCoin    -- NoCoin.insertCoin:   m.state = new HasCoin()
  | .noCoin, .selectDrink => .noCoin    -- NoCoin.selectDrink:  log only
  | .hasCoin, .insertCoin => .hasCoin   -- HasCoin.insertCoin:  log only
  | .hasCoin, .selectDrink => .noCoin   -- HasCoin.selectDrink: m.state = new NoCoin()

/-! Example 3 (lines 123-279): AdvancedOrder with seven states. -/

inductive AdvTag
  | pending
  | paid
  | processing
  | shipped
  | delivered
  | cancelled
  | refunded
  deriving DecidableEq, Fintype

inductive AdvAction
  | cancel
  | ship
  | deliver
  | refund
  deriving DecidableEq, Fintype

/-- Transcription of the methods of `PendingAdv` (164-179), `PaidAdv`
(181-200), `ProcessingAdv` (202-219), `ShippedAdv` (221-238),
`DeliveredAdv` (240-255), `CancelledAdv` (257-267) and `RefundedAdv`
(269-279). -/
def advStep : AdvTag → AdvAction → AdvTag
  | .pending, .cancel => .cancelled     -- PendingAdv.cancel:    order.state = new CancelledAdv()
  | .pending, .ship => .pending         -- PendingAdv.ship:      log only
  | .pending, .deliver => .pending      -- PendingAdv.deliver:   empty body
  | .pending, .refund => .pending       -- PendingAdv.refund:    log only
  | .paid, .cancel => .refunded         -- PaidAdv.cancel:       order.state = new RefundedAdv()
  | .paid, .ship => .shipped            -- PaidAdv.ship:         order.state = new ShippedAdv()
  | .paid, .deliver => .paid            -- PaidAdv.deliver:      log only
  | .paid, .refund => .refunded         -- PaidAdv.refund:       order.state = new RefundedAdv()
  | .processing, .cancel => .processing -- ProcessingAdv.cancel: log only
  | .processing, .ship => .shipped      -- ProcessingAdv.ship:   order.state = new ShippedAdv()
  | .processing, .deliver => .processing -- ProcessingAdv.deliver: log only
  | .processing, .refund => .processing -- ProcessingAdv.refund: log only
  | .shipped, .cancel => .shipped       -- ShippedAdv.cancel:    log only
  | .shipped, .ship => .shipped         -- ShippedAdv.ship:      log only
  | .shipped, .deliver => .delivered    -- ShippedAdv.deliver:   order.state = new DeliveredAdv()
  | .shipped, .refund => .shipped       -- ShippedAdv.refund:    log only
  | .delivered, .cancel => .delivered   -- DeliveredAdv.cancel:  log only
  | .delivered, .ship => .delivered     -- DeliveredAdv.ship:    empty body
  | .delivered, .deliver => .delivered  -- DeliveredAdv.deliver: log only
  | .delivered, .refund => .refunded    -- DeliveredAdv.refund:  order.state = new RefundedAdv()
  | .cancelled, _ => .cancelled         -- CancelledAdv:         no method reassigns state
  | .refunded, _ => .refunded           -- RefundedAdv:          no method reassigns state

/-- Identity tag returned by each advanced variant's `status()`, a value of
the union type `AdvancedOrderStateName` (lines 123-130). -/
def AdvTag.status : AdvTag → String
  | .pending => "PENDING"
  | .paid => "PAID"
  | .processing => "PROCESSING"
  | .shipped => "SHIPPED"
  | .delivered => "DELIVERED"
  | .cancelled => "CANCELLED"
  | .refunded => "REFUNDED"

/-! Example 4 (lines 294-414): ContentDoc with five states and a mutable
revision counter `version`. -/

inductive DocTag
  | draft
  | inReview
  | approved
  | rejected
  | published
  deriving DecidableEq, Fintype

inductive DocAction
  | submit
  | approve
  | reject
  | publish
  deriving DecidableEq, Fintype

/-- Transcription (state component) of the methods of `Draft` (328-345),
`InReview` (347-365), `Approved` (367-382), `Rejected` (384-402) and
`Published` (404-414).  The `reject` method's optional `reason` parameter
appears only in the logged message, never in the state, so it does not
occur here. -/
def docStep : DocTag → DocAction → DocTag
  | .draft, .submit => .inReview        -- Draft.submit:      doc.state = new InReview()
  | .draft, .approve => .draft          -- Draft.approve:     log only
  | .draft, .reject => .draft           -- Draft.reject:      log only
  | .draft, .publish => .draft          -- Draft.publish:     log only
  | .inReview, .submit => .inReview     -- InReview.submit:   log only
  | .inReview, .approve => .approved    -- InReview.approve:  doc.state = new Approved()
  | .inReview, .reject => .rejected     -- InReview.reject:   doc.state = new Rejected()
  | .inReview, .publish => .inReview    -- InReview.publish:  log only
  | .approved, .submit => .approved     -- Approved.submit:   empty body
  | .approved, .approve => .approved    -- Approved.approve:  log only
  | .approved, .reject => .approved     -- Approved.reject:   log only
  | .approved, .publish => .published   -- Approved.publish:  doc.state = new Published()
  | .rejected, .submit => .draft        -- Rejected.submit:   doc.version++; doc.state = new Draft()
  | .rejected, .approve => .rejected    -- Rejected.approve:  log only
  | .rejected, .reject => .rejected     -- Rejected.reject:   log only
  | .rejected, .publish => .rejected    -- Rejected.publish:  log only
  | .published, .publish => .published  -- Published.publish: log only
  | .published, _ => .published         -- Published.submit/approve/reject: empty bodies

/-- Identity tag returned by each document variant's `status()`, a value of
the union type `DocumentStateName` (line 294). -/
def DocTag.status : DocTag → String
  | .draft => "DRAFT"
  | .inReview => "IN_REVIEW"
  | .approved => "APPROVED"
  | .rejected => "REJECTED"
  | .published => "PUBLISHED"

/-! Example 5 (lines 429-572): Subscription with five states; `charge`
also returns a boolean. -/

inductive SubTag
  | trial
  | active
  | pastDue
  | suspended
  | cancelled
  deriving DecidableEq, Fintype

inductive SubAction
  | activate
  | charge
  | paymentFailed
  | suspend
  | cancel
  deriving DecidableEq, Fintype

/-- Transcription (state component) of the methods of `Trial` (467-487),
`ActiveSub` (489-512), `PastDueSub` (514-536), `SuspendedSub` (538-557)
and `CancelledSub` (559-572). -/
def subStep : SubTag → SubAction → SubTag
  | .trial, .activate => .active        -- Trial.activate:         sub.state = new ActiveSub()
  | .trial, .charge => .trial           -- Trial.charge:           log only, returns false
  | .trial, .paymentFailed => .trial    -- Trial.paymentFailed:    empty body
  | .trial, .suspend => .trial          -- Trial.suspend:          log only
  | .trial, .cancel => .cancelled       -- Trial.cancel:           sub.state = new CancelledSub()
  | .active, .activate => .active       -- ActiveSub.activate:     log only
  | .active, .charge => .active         -- ActiveSub.charge:       log only, returns true
  | .active, .paymentFailed => .pastDue -- ActiveSub.paymentFailed: sub.state = new PastDueSub()
  | .active, .suspend => .suspended     -- ActiveSub.suspend:      sub.state = new SuspendedSub()
  | .active, .cancel => .cancelled      -- ActiveSub.cancel:       sub.state = new CancelledSub()
  | .pastDue, .activate => .pastDue     -- PastDueSub.activate:    log only
  | .pastDue, .charge => .active        -- PastDueSub.charge:      sub.state = new ActiveSub(); returns true
  | .pastDue, .paymentFailed => .suspended -- PastDueSub.paymentFailed: sub.state = new SuspendedSub()
  | .pastDue, .suspend => .suspended    -- PastDueSub.suspend:     sub.state = new SuspendedSub()
  | .pastDue, .cancel => .cancelled     -- PastDueSub.cancel:      sub.state = new CancelledSub()
  | .suspended, .activate => .suspended -- SuspendedSub.activate:  log only
  | .suspended, .charge => .active      -- SuspendedSub.charge:    sub.state = new ActiveSub(); returns true
  | .suspended, .paymentFailed => .suspended -- SuspendedSub.paymentFailed: empty body
  | .suspended, .suspend => .suspended  -- SuspendedSub.suspend:   log only
  | .suspended, .cancel => .cancelled   -- SuspendedSub.cancel:    sub.state = new CancelledSub()
  | .cancelled, .cancel => .cancelled   -- CancelledSub.cancel:    log only
  | .cancelled, _ => .cancelled         -- CancelledSub:           other bodies empty, charge returns false

/-- Boolean returned by each variant's `charge` method (lines 472-475,
493-496, 518-522, 542-546, 561-563). -/
def subChargeResult : SubTag → Bool
  | .trial => false       -- Trial.charge:        return false
  | .active => true       -- ActiveSub.charge:    return true
  | .pastDue => true      -- PastDueSub.charge:   return true
  | .suspended => true    -- SuspendedSub.charge: return true
  | .cancelled => false   -- CancelledSub.charge: return false

/-- Identity tag returned by each subscription variant's `status()`, a
value of the union type `SubscriptionStateName` (line 429). -/
def SubTag.status : SubTag → String
  | .trial => "TRIAL"
  | .active => "ACTIVE"
  | .pastDue => "PAST_DUE"
  | .suspended => "SUSPENDED"
  | .cancelled => "CANCELLED"

/-! Legal-transition tables.  Each table lists exactly the (variant, action)
pairs whose method body reassigns the context's `state` field, paired with
the assigned successor; every other pair maps to `none`.  They restate the
assignments already cited in the step functions above so that frame
properties (non-listed pairs leave the state unchanged) can be stated
against an explicit table. -/

def orderTrans : OrderTag → OrderAction → Option OrderTag
  | .pending, .pay => some .paid
  | .paid, .ship => some .shipped
  | _, _ => none

def vendTrans : VendTag → VendAction → Option VendTag
  | .noCoin, .insertCoin => some .hasCoin
  | .hasCoin, .selectDrink => some .noCoin
  | _, _ => none

def advTrans : AdvTag → AdvAction → Option AdvTag
  | .pending, .cancel => some .cancelled
  | .paid, .cancel => some .refunded
  | .paid, .ship => some .shipped
  | .paid, .refund => some .refunded
  | .processing, .ship => some .shipped
  | .shipped, .deliver => some .delivered
  | .delivered, .refund => some .refunded
  | _, _ => none

def docTrans : DocTag → DocAction → Option DocTag
  | .draft, .submit => some .inReview
  | .inReview, .approve => some .approved
  | .inReview, .reject => some .rejected
  | .rejected, .submit => some .draft
  | .approved, .publish => some .published
  | _, _ => none

def subTrans : SubTag → SubAction → Option SubTag
  | .trial, .activate => some .active
  | .trial, .cancel => some .cancelled
  | .active, .paymentFailed => some .pastDue
  | .active, .suspend => some .suspended
  | .active, .cancel => some .cancelled
  | .pastDue, .charge => some .active
  | .pastDue, .paymentFailed => some .suspended
  | .pastDue, .suspend => some .suspended
  | .pastDue, .cancel => some .cancelled
  | .suspended, .charge => some .active
  | .suspended, .cancel => some .cancelled
  | _, _ => none

/-! Runs from the designated initial states.  The demo code constructs each
context with an explicit initial state: `new Order(new Pending())` (line 67),
`new VendingMachine(new NoCoin())` (line 114), `new AdvancedOrder(new
PendingAdv(), ...)` (line 281), `new ContentDoc(new Draft(), ...)` (line
416), `new Subscription(new Trial(), ...)` (line 574). -/

def orderRun (acts : List OrderAction) : OrderTag :=
  acts.foldl orderStep .pending

def vendRun (acts : List VendAction) : VendTag :=
  acts.foldl vendStep .noCoin

def advRun (acts : List AdvAction) : AdvTag :=
  acts.foldl advStep .pending

def docRun (acts : List DocAction) : DocTag :=
  acts.foldl docStep .draft

def subRun (acts : List SubAction) : SubTag :=
  acts.foldl subStep .trial

/-- One round trip of the vending machine (demo lines 116-117): insert a
coin, then select a drink. -/
def vendCycle (s : VendTag) : VendTag :=
  vendStep (vendStep s .insertCoin) .selectDrink

/-! Context entities.  Each context class holds the mutable `state` handle
plus intrinsic payload data; `getStatus()` only reads `this.state` and
returns its `status()`.  We model `getStatus` as returning the queried tag
together with the context as the call leaves it. -/

/-- Context class `Order` (lines 15-29). -/
structure Order where
  state : OrderTag

/-- Transcription of `Order.getStatus` (lines 26-28): returns
`this.state.status()` and does not write any field. -/
def Order.getStatus (o : Order) : String × Order :=
  (o.state.status, o)

/-- Context class `AdvancedOrder` (lines 140-162); `amount` is a TS
`number` used only in logged messages, modelled as a rational. -/
structure AdvancedOrder where
  state : AdvTag
  orderId : String
  amount : ℚ

/-- Transcription of `AdvancedOrder.getStatus` (lines 159-161). -/
def AdvancedOrder.getStatus (o : AdvancedOrder) : String × AdvancedOrder :=
  (o.state.status, o)

/-- Context class `ContentDoc` (lines 304-326) with its mutable revision
counter `version`. -/
structure ContentDoc where
  state : DocTag
  title : String
  version : Nat

/-- Transcription of `ContentDoc.getStatus` (lines 323-325). -/
def ContentDoc.getStatus (d : ContentDoc) : String × ContentDoc :=
  (d.state.status, d)

/-- Context-level `submit()` (lines 311-313) delegating to the current
state's `submit` (lines 329-332, 348-350, 368, 385-389, 405): only
`Rejected.submit` touches `version` (`doc.version++`, line 386) before
moving the state to `Draft`. -/
def ContentDoc.submit (doc : ContentDoc) : ContentDoc :=
  match doc.state with
  | .draft => { doc with state := .inReview }
  | .inReview => doc
  | .approved => doc
  | .rejected => { doc with version := doc.version + 1, state := .draft }
  | .published => doc

/-- Context-level `approve()` (lines 314-316) delegating to the current
state's `approve` (lines 333-335, 351-354, 369-371, 390-392, 406). -/
def ContentDoc.approve (doc : ContentDoc) : ContentDoc :=
  match doc.state with
  | .inReview => { doc with state := .approved }
  | _ => doc

/-- Context-level `reject(reason?)` (lines 317-319) delegating to the
current state's `reject` (lines 336-338, 355-358, 372-374, 393-395, 407).
The optional `reason` is interpolated into the logged message only and
never stored, so it does not affect the result. -/
def ContentDoc.reject (doc : ContentDoc) (reason : Option String) : ContentDoc :=
  match doc.state, reason with
  | .inReview, _ => { doc with state := .rejected }
  | _, _ => doc

/-- Context-level `publish()` (lines 320-322) delegating to the current
state's `publish` (lines 339-341, 359-361, 375-378, 396-398, 408-410). -/
def ContentDoc.publish (doc : ContentDoc) : ContentDoc :=
  match doc.state with
  | .approved => { doc with state := .published }
  | _ => doc

/-- Dispatch of a document action on the full context. -/
def docAct (doc : ContentDoc) : DocAction → ContentDoc
  | .submit => doc.submit
  | .approve => doc.approve
  | .reject => doc.reject none
  | .publish => doc.publish

/-- Context class `Subscription` (lines 440-465). -/
structure Subscription where
  state : SubTag
  planId : String
  billingDay : Nat

/-- Transcription of `Subscription.getStatus` (lines 462-464). -/
def Subscription.getStatus (s : Subscription) : String × Subscription :=
  (s.state.status, s)

/-! Document scenario chain: a draft (title from demo line 416) at version 1,
then the action sequence of the approval-flow scenario. -/

def docDemo0 : ContentDoc := ⟨.draft, "API Rehberi", 1⟩

def docDemo1 : ContentDoc := docDemo0.approve

def docDemo2 : ContentDoc := docDemo1.submit

def docDemo3 : ContentDoc := docDemo2.reject (some "missing examples")

def docDemo4 : ContentDoc := docDemo3.submit

def docDemo5 : ContentDoc := docDemo4.submit

def docDemo6 : ContentDoc := docDemo5.approve

def docDemo7 : ContentDoc := docDemo6.publish

/-! Exception behaviour.  No method body in the source contains a `throw`;
to state that, each lifecycle's delegated call is transcribed once more
into `Except String`, where a thrown error would appear as `.error ...`.
Every method body is a log and/or a state assignment, so every arm below
is `.ok` of the resulting state. -/

def orderActE : OrderTag → OrderAction → Except String OrderTag
  | .pending, .pay => .ok .paid
  | .pending, .ship => .ok .pending
  | .paid, .pay => .ok .paid
  | .paid, .ship => .ok .shipped
  | .shipped, .pay => .ok .shipped
  | .shipped, .ship => .ok .shipped

def vendActE : VendTag → VendAction → Except String VendTag
  | .noCoin, .insertCoin => .ok .hasCoin
  | .noCoin, .selectDrink => .ok .noCoin
  | .hasCoin, .insertCoin => .ok .hasCoin
  | .hasCoin, .selectDrink => .ok .noCoin

def advActE : AdvTag → AdvAction → Except String AdvTag
  | .pending, .cancel => .ok .cancelled
  | .pending, .ship => .ok .pending
  | .pending, .deliver => .ok .pending
  | .pending, .refund => .ok .pending
  | .paid, .cancel => .ok .refunded
  | .paid, .ship => .ok .shipped
  | .paid, .deliver => .ok .paid
  | .paid, .refund => .ok .refunded
  | .processing, .cancel => .ok .processing
  | .processing, .ship => .ok .shipped
  | .processing, .deliver => .ok .processing
  | .processing, .refund => .ok .processing
  | .shipped, .cancel => .ok .shipped
  | .shipped, .ship => .ok .shipped
  | .shipped, .deliver => .ok .delivered
  | .shipped, .refund => .ok .shipped
  | .delivered, .cancel => .ok .delivered
  | .delivered, .ship => .ok .delivered
  | .delivered, .deliver => .ok .delivered
  | .delivered, .refund => .ok .refunded
  | .cancelled, _ => .ok .cancelled
  | .refunded, _ => .ok .refunded

def docActE : DocTag → DocAction → Except String DocTag
  | .draft, .submit => .ok .inReview
  | .draft, .approve => .ok .draft
  | .draft, .reject => .ok .draft
  | .draft, .publish => .ok .draft
  | .inReview, .submit => .ok .inReview
  | .inReview, .approve => .ok .approved
  | .inReview, .reject => .ok .rejected
  | .inReview, .publish => .ok .inReview
  | .approved, .submit => .ok .approved
  | .approved, .approve => .ok .approved
  | .approved, .reject => .ok .approved
  | .approved, .publish => .ok .published
  | .rejected, .submit => .ok .draft
  | .rejected, .approve => .ok .rejected
  | .rejected, .reject => .ok .rejected
  | .rejected, .publish => .ok .rejected
  | .published, _ => .ok .published

def subActE : SubTag → SubAction → Except String SubTag
  | .trial, .activate => .ok .active
  | .trial, .charge => .ok .trial
  | .trial, .paymentFailed => .ok .trial
  | .trial, .suspend => .ok .trial
  | .trial, .cancel => .ok .cancelled
  | .active, .activate => .ok .active
  | .active, .charge => .ok .active
  | .active, .paymentFailed => .ok .pastDue
  | .active, .suspend => .ok .suspended
  | .active, .cancel => .ok .cancelled
  | .pastDue, .activate => .ok .pastDue
  | .pastDue, .charge => .ok .active
  | .pastDue, .paymentFailed => .ok .suspended
  | .pastDue, .suspend => .ok .suspended
  | .pastDue, .cancel => .ok .cancelled
  | .suspended, .activate => .ok .suspended
  | .suspended, .charge => .ok .active
  | .suspended, .paymentFailed => .ok .suspended
  | .suspended, .suspend => .ok .suspended
  | .suspended, .cancel => .ok .cancelled
  | .cancelled, _ => .ok .cancelled

/-! Theorems. -/

/-- Sanity: the context-level document actions and the tag-level step
function describe the same state evolution. -/
theorem docAct_state (d : ContentDoc) (a : DocAction) :
    (docAct d a).state = docStep d.state a := by
  cases a <;> cases h : d.state <;>
    simp [docAct, ContentDoc.submit, ContentDoc.approve, ContentDoc.reject,
      ContentDoc.publish, docStep, h]

/-- C1 (counterexample): in the document lifecycle, (Rejected, submit) is a
listed transition with successor Draft, yet invoking submit once more moves
the tag on to InReview instead of leaving it at the successor Draft, so the
claim that a repeated action leaves the tag at the specified successor is
false at this input. -/
theorem rejected_submit_twice_leaves_draft :
    docTrans .rejected .submit = some .draft ∧
    docStep .rejected .submit = .draft ∧
    docStep (docStep .rejected .submit) .submit ≠ .draft := by
  decide

/-- C1 (amended): for every lifecycle and every (variant, action) pair of
its legal-transition table, invoking that action changes the tag to exactly
the listed successor, and invoking the same action once more never reverts
the tag to the predecessor (though it may advance it further). -/
theorem listed_transitions_reach_successor_never_revert :
    (∀ s a s', orderTrans s a = some s' → orderStep s a = s' ∧ orderStep s' a ≠ s) ∧
    (∀ s a s', vendTrans s a = some s' → vendStep s a = s' ∧ vendStep s' a ≠ s) ∧
    (∀ s a s', advTrans s a = some s' → advStep s a = s' ∧ advStep s' a ≠ s) ∧
    (∀ s a s', docTrans s a = some s' → docStep s a = s' ∧ docStep s' a ≠ s) ∧
    (∀ s a s', subTrans s a = some s' → subStep s a = s' ∧ subStep s' a ≠ s) := by
  refine ⟨?_, ?_, ?_, ?_, ?_⟩ <;> decide

/-- C1 (witness): the amended theorem instantiated at the order lifecycle's
transition Pending.pay with successor Paid. -/
theorem listed_transitions_witness :
    orderStep .pending .pay = .paid ∧ orderStep .paid .pay ≠ .pending :=
  listed_transitions_reach_successor_never_revert.1 .pending .pay .paid (by decide)

/-- C2: in every lifecycle, every action call moves the tag to the listed
successor when the (variant, action) pair is in the legal-transition table
and leaves the tag unchanged otherwise — so after any call the state is the
prior state or the single legal successor, never anything else. -/
theorem step_is_table_or_frame :
    (∀ s a, orderStep s a = (orderTrans s a).getD s) ∧
    (∀ s a, vendStep s a = (vendTrans s a).getD s) ∧
    (∀ s a, advStep s a = (advTrans s a).getD s) ∧
    (∀ s a, docStep s a = (docTrans s a).getD s) ∧
    (∀ s a, subStep s a = (subTrans s a).getD s) := by
  refine ⟨?_, ?_, ?_, ?_, ?_⟩ <;> decide

/-- C3 (counterexample): DeliveredAdv, which the claim counts among the
terminal variants, accepts `refund` as a transitioning action: it changes
the tag from DELIVERED to REFUNDED rather than leaving it unchanged. -/
theorem delivered_accepts_refund :
    advStep .delivered .refund = .refunded ∧ advStep .delivered .refund ≠ .delivered := by
  decide

/-- C3 (amended): the variants on which every action leaves the tag
unchanged are exactly Shipped (order), Cancelled and Refunded (advanced
order), Published (document) and Cancelled (subscription); the vending
machine has none, and Delivered is not terminal in the advanced lifecycle
because `refund` transitions it to Refunded. -/
theorem terminal_variants_exact :
    (∀ s : OrderTag, (∀ a, orderStep s a = s) ↔ s = .shipped) ∧
    (∀ s : VendTag, ¬ ∀ a, vendStep s a = s) ∧
    (∀ s : AdvTag, (∀ a, advStep s a = s) ↔ (s = .cancelled ∨ s = .refunded)) ∧
    (∀ s : DocTag, (∀ a, docStep s a = s) ↔ s = .published) ∧
    (∀ s : SubTag, (∀ a, subStep s a = s) ↔ s = .cancelled) := by
  refine ⟨?_, ?_, ?_, ?_, ?_⟩ <;> decide

/-- Helper: any run of the advanced order that starts in the set consisting
of PENDING and CANCELLED stays in that set, since from PENDING the only
transition is cancel to CANCELLED and CANCELLED has none. -/
theorem advFold_closed (acts : List AdvAction) :
    ∀ s, (s = .pending ∨ s = .cancelled) →
      (acts.foldl advStep s = .pending ∨ acts.foldl advStep s = .cancelled) := by
  induction acts with
  | nil => intro s h; simpa using h
  | cons a as ih =>
    intro s h
    rw [List.foldl_cons]
    exact ih _ (by rcases h with h | h <;> subst h <;> cases a <;> decide)

/-- C4 (counterexample): in the advanced order lifecycle, the variant PAID
is an unreachable island — no finite sequence of actions starting from the
initial state PENDING ever reaches it (the demo reaches it only by
constructing the context directly in PaidAdv, line 285). -/
theorem adv_paid_unreachable :
    ¬ ∃ acts : List AdvAction, advRun acts = AdvTag.paid := by
  rintro ⟨acts, h⟩
  rcases advFold_closed acts .pending (Or.inl rfl) with h' | h' <;>
    simp only [advRun] at h <;> rw [h'] at h <;> exact absurd h (by decide)

/-- C4 (amended): in the order, document and subscription lifecycles every
variant, including a terminal one, is reachable from the initial state by a
finite action sequence; in the vending lifecycle both variants are
reachable from NoCoin but no terminal variant exists (every state has an
outbound transition); in the advanced order lifecycle only PENDING and
CANCELLED are reachable from PENDING — the terminal CANCELLED is reached,
but PAID, PROCESSING, SHIPPED, DELIVERED and REFUNDED are unreachable
islands. -/
theorem reachability_assessment :
    (orderRun [] = .pending ∧ orderRun [.pay] = .paid ∧
      orderRun [.pay, .ship] = .shipped) ∧
    (vendRun [] = .noCoin ∧ vendRun [.insertCoin] = .hasCoin ∧
      ∀ s : VendTag, ∃ a, vendStep s a ≠ s) ∧
    (advRun [] = .pending ∧ advRun [.cancel] = .cancelled ∧
      ∀ acts : List AdvAction, advRun acts = .pending ∨ advRun acts = .cancelled) ∧
    (docRun [] = .draft ∧ docRun [.submit] = .inReview ∧
      docRun [.submit, .reject] = .rejected ∧
      docRun [.submit, .approve] = .approved ∧
      docRun [.submit, .approve, .publish] = .published) ∧
    (subRun [] = .trial ∧ subRun [.activate] = .active ∧
      subRun [.activate, .paymentFailed] = .pastDue ∧
      subRun [.activate, .suspend] = .suspended ∧
      subRun [.activate, .cancel] = .cancelled) := by
  refine ⟨by decide, ⟨by decide, by decide, by decide⟩,
    ⟨by decide, by decide, fun acts => advFold_closed acts .pending (Or.inl rfl)⟩,
    ⟨by decide, by decide, by decide, by decide, by decide⟩,
    ⟨by decide, by decide, by decide, by decide, by decide⟩⟩

/-- C5: the order-lifecycle scenario: from Pending, ship is rejected
(tag stays Pending), pay moves the tag to Paid, a second pay is a no-op,
ship then moves the tag to Shipped, and a final pay leaves it Shipped. -/
theorem order_scenario :
    orderRun [.ship] = .pending ∧
    orderRun [.ship, .pay] = .paid ∧
    orderRun [.ship, .pay, .pay] = .paid ∧
    orderRun [.ship, .pay, .pay, .ship] = .shipped ∧
    orderRun [.ship, .pay, .pay, .ship, .pay] = .shipped := by
  decide

/-- C6: the document-lifecycle scenario: starting from a Draft at version 1,
approve is rejected, submit reaches IN_REVIEW, reject reaches REJECTED,
submit returns to DRAFT with the revision counter incremented to 2, submit
reaches IN_REVIEW, approve reaches APPROVED and publish reaches
PUBLISHED. -/
theorem document_scenario :
    docDemo0.state = .draft ∧ docDemo0.version = 1 ∧
    docDemo1.state = .draft ∧
    docDemo2.state = .inReview ∧
    docDemo3.state = .rejected ∧
    docDemo4.state = .draft ∧ docDemo4.version = 2 ∧
    docDemo5.state = .inReview ∧
    docDemo6.state = .approved ∧
    docDemo7.state = .published := by
  exact ⟨rfl, rfl, rfl, rfl, rfl, rfl, rfl, rfl, rfl, rfl⟩

/-- C7: no action of any lifecycle raises for a wrong-state invocation:
for every variant and every action of the contract, the delegated call
completes normally, returning the step function's state and never an
error. -/
theorem actions_never_raise :
    (∀ s a, orderActE s a = .ok (orderStep s a)) ∧
    (∀ s a, vendActE s a = .ok (vendStep s a)) ∧
    (∀ s a, advActE s a = .ok (advStep s a)) ∧
    (∀ s a, docActE s a = .ok (docStep s a)) ∧
    (∀ s a, subActE s a = .ok (subStep s a)) := by
  refine ⟨?_, ?_, ?_, ?_, ?_⟩ <;> intro s a <;> cases s <;> cases a <;> rfl

/-- C8: for every lifecycle that has a status query, the query returns a
value from that lifecycle's fixed, closed set of identity tags, and at the
context level calling the query returns the current tag while leaving the
context exactly as it was. -/
theorem status_closed_set_and_pure :
    (∀ s : OrderTag, s.status ∈ ["Beklemede", "Ödendi", "Gönderildi"]) ∧
    (∀ s : AdvTag, s.status ∈
      ["PENDING", "PAID", "PROCESSING", "SHIPPED", "DELIVERED", "CANCELLED", "REFUNDED"]) ∧
    (∀ s : DocTag, s.status ∈
      ["DRAFT", "IN_REVIEW", "APPROVED", "REJECTED", "PUBLISHED"]) ∧
    (∀ s : SubTag, s.status ∈
      ["TRIAL", "ACTIVE", "PAST_DUE", "SUSPENDED", "CANCELLED"]) ∧
    (∀ o : Order, o.getStatus = (o.state.status, o)) ∧
    (∀ o : AdvancedOrder, o.getStatus = (o.state.status, o)) ∧
    (∀ d : ContentDoc, d.getStatus = (d.state.status, d)) ∧
    (∀ s : Subscription, s.getStatus = (s.state.status, s)) := by
  refine ⟨?_, ?_, ?_, ?_, fun _ => rfl, fun _ => rfl, fun _ => rfl, fun _ => rfl⟩ <;>
    intro s <;> cases s <;> simp [OrderTag.status, AdvTag.status, DocTag.status, SubTag.status]

/-- C9: `charge` returns true exactly in the states ACTIVE, PAST_DUE and
SUSPENDED and false in TRIAL and CANCELLED; it transitions PAST_DUE and
SUSPENDED back to ACTIVE and leaves ACTIVE, TRIAL and CANCELLED
unchanged. -/
theorem charge_result_and_transitions :
    (∀ s : SubTag, subChargeResult s = true ↔ (s = .active ∨ s = .pastDue ∨ s = .suspended)) ∧
    subStep .pastDue .charge = .active ∧
    subStep .suspended .charge = .active ∧
    subStep .active .charge = .active ∧
    subStep .trial .charge = .trial ∧
    subStep .cancelled .charge = .cancelled := by
  refine ⟨?_, ?_, ?_, ?_, ?_, ?_⟩ <;> decide

/-- C10: the vending machine's two transitions form a round trip: from
NoCoin, insertCoin then selectDrink returns to NoCoin; repeating that pair
any number of times from NoCoin ends in NoCoin; and selectDrink alone from
NoCoin leaves the state NoCoin. -/
theorem vending_round_trip :
    vendCycle .noCoin = .noCoin ∧
    (∀ n : Nat, vendCycle^[n] .noCoin = .noCoin) ∧
    vendStep .noCoin .selectDrink = .noCoin := by
  refine ⟨rfl, ?_, rfl⟩
  intro n
  induction n with
  | zero => rfl
  | succ k ih => rw [Function.iterate_succ_apply', ih]; rfl
